import Mathlib

/-!
Shallow embedding of the Cambridge restaurant planning workflow
(`workflow.py`, `calendar_agent.py`, `agent_messages.py`, `models.py`)
and proofs of the specification claims about it.

Python strings are modelled as Lean `String`/`List Char`; Python floats as
rationals (no float arithmetic is relied on by any claim); Python dicts as
association lists in insertion order; exceptions as `Option`/`Except`.
-/

namespace Restaurant

/-! ### Python string primitives -/

/-- Python `\s` on ASCII: space, tab, newline, carriage return, vertical tab, form feed. -/
def isPySpace (c : Char) : Bool :=
  c = ' ' || c = '\t' || c = '\n' || c = '\r' || c = Char.ofNat 11 || c = Char.ofNat 12

/-- Membership test of the regex character class `[A-Za-z0-9\s&\x27]`. -/
def isClassChar (c : Char) : Bool :=
  (c.isAlpha && c.toNat < 128) || c.isDigit || isPySpace c || c = '&' || c = Char.ofNat 39

/-- `needle` is an initial segment of `hay` (helper for Python's `in`). -/
def leadsList : List Char → List Char → Bool
  | [], _ => true
  | _ :: _, [] => false
  | a :: as, b :: bs => a == b && leadsList as bs

/-- Python substring containment `needle in hay` on character lists. -/
def hasSubstrL (needle : List Char) : List Char → Bool
  | [] => needle.isEmpty
  | c :: cs => leadsList needle (c :: cs) || hasSubstrL needle cs

/-- Python `needle in hay` on strings. -/
def pyIn (needle hay : String) : Bool := hasSubstrL needle.data hay.data

/-- Python `str.strip()` on a character list. -/
def stripL (cs : List Char) : List Char :=
  ((cs.dropWhile isPySpace).reverse.dropWhile isPySpace).reverse

/-- Python `str.split()` (split on whitespace runs, dropping empties); accumulator form. -/
def splitWsAux : List Char → List Char → List (List Char)
  | [], acc => if acc.isEmpty then [] else [acc.reverse]
  | c :: cs, acc =>
    if isPySpace c then
      if acc.isEmpty then splitWsAux cs [] else acc.reverse :: splitWsAux cs []
    else splitWsAux cs (c :: acc)

/-- Python `str.split()` on a character list. -/
def splitWsL (cs : List Char) : List (List Char) := splitWsAux cs []

/-- Python `str.split("@")` (keeps empty parts). -/
def splitAtSign : List Char → List Char → List (List Char)
  | [], acc => [acc.reverse]
  | c :: cs, acc =>
    if c = '@' then acc.reverse :: splitAtSign cs [] else splitAtSign cs (c :: acc)

/-- Python `str.lower()` (ASCII). -/
def pyLower (s : String) : String := String.mk (s.data.map Char.toLower)

/-! ### The location-phrase regular expressions of `calendar_agent.py`

The patterns are `at\s+([A-Za-z0-9\s&\x27]+(?:\s*,\s*[A-Za-z0-9\s&\x27]+)*)`
and the same with `in`.  Since whitespace is inside the character class and
`,` is not, a greedy match at a fixed position consumes the maximal run of
class characters, then repeatedly a comma followed by a further non-empty
class run; the `\s+` keeps one character back when the character after the
whitespace run is not a class character. -/

/-- Fuelled greedy consumption of `(?:\s*,\s*[class]+)*`: every step consumes
the comma plus a non-empty class run, so a fuel of the list length is never
exhausted (see `commaSegsFuel_stable`). -/
def commaSegsFuel : Nat → List Char → List Char
  | 0, _ => []
  | _ + 1, [] => []
  | n + 1, c :: rest =>
    if c = ',' then
      let seg := rest.takeWhile isClassChar
      if seg.isEmpty then []
      else ',' :: (seg ++ commaSegsFuel n (rest.dropWhile isClassChar))
    else []

/-- Greedy consumption of `(?:\s*,\s*[class]+)*` starting at `cs`:
returns the consumed characters. -/
def commaSegs (cs : List Char) : List Char := commaSegsFuel cs.length cs

/-- Match of the pattern tail `\s+([class]+(?:\s*,\s*[class]+)*)` at the start
of `cs`; returns the capture group on success. -/
def matchTailAt (cs : List Char) : Option (List Char) :=
  match cs with
  | [] => none
  | c0 :: rest =>
    if isPySpace c0 then
      let ws := List.takeWhile isPySpace (c0 :: rest)
      let crun := List.takeWhile isClassChar (c0 :: rest)
      let after := List.dropWhile isClassChar (c0 :: rest)
      if ws.length < crun.length then
        some (crun.drop ws.length ++ commaSegs after)
      else if 2 ≤ ws.length then
        some (crun.drop (ws.length - 1) ++ commaSegs after)
      else none
    else none

/-- One attempt of the full pattern (literal two-character word then tail)
at the head of the list. -/
def tryHere (c1 c2 : Char) : List Char → Option (List Char)
  | c :: d :: ds => if c == c1 && d == c2 then matchTailAt ds else none
  | _ => none

/-- `re.search` for the two-letter-word pattern: leftmost position where the
whole pattern matches; returns the capture group. -/
def searchPat (c1 c2 : Char) : List Char → Option (List Char)
  | [] => none
  | c :: cs =>
    match tryHere c1 c2 (c :: cs) with
    | some cap => some cap
    | none => searchPat c1 c2 cs

/-! ### `extract_location_from_description` (`calendar_agent.py` 52-102) -/

/-- The `skip_terms` denylist of generic activities. -/
def skip_terms : List String :=
  ["breakfast", "lunch", "dinner", "coffee break", "meeting", "call", "run",
   "phone call", "zoom", "online", "virtual"]

/-- The `venue_terms` list (the third entry reproduces the source's literal
`caf` followed by the two bytes U+00C3 U+00A9). -/
def venue_terms : List String :=
  ["pub", "restaurant",
   String.mk ['c', 'a', 'f', Char.ofNat 195, Char.ofNat 169],
   "cafe", "bar", "hotel", "office", "center", "centre"]

/-- Embedding of `extract_location_from_description`. -/
def extract_location_from_description (description : String) : Option String :=
  let lower_desc := pyLower description
  if skip_terms.any (fun term =>
      pyIn term lower_desc && !(pyIn "at " lower_desc) && !(pyIn "in " lower_desc)) then
    none
  else
    match searchPat 'a' 't' description.data with
    | some cap => some (String.mk (stripL cap))
    | none =>
      match searchPat 'i' 'n' description.data with
      | some cap => some (String.mk (stripL cap))
      | none =>
        if (splitWsL description.data).any (fun w =>
            venue_terms.any (fun term => hasSubstrL term.data (w.map Char.toLower))) then
          some description
        else if pyIn "@" description then
          match splitAtSign description.data [] with
          | _ :: p1 :: _ => some (String.mk (stripL p1))
          | _ => none
        else none

/-! ### Data model (`models.py`) -/

/-- `models.Geolocation`. -/
structure Geolocation where
  latitude : ℚ
  longitude : ℚ
deriving DecidableEq

/-- `models.RestaurantInfo`. -/
structure RestaurantInfo where
  name : String
  type : String
  latitude : ℚ
  longitude : ℚ
deriving DecidableEq

/-- `models.RouteDetails`. -/
structure RouteDetails where
  distance : String
  directions : String
deriving DecidableEq

/-- `models.RestaurantSelection`: the Select stage's structured result. -/
structure RestaurantSelection where
  selected_meals : List String
  breakfast_restaurant : Option RestaurantInfo
  lunch_restaurant : Option RestaurantInfo
  dinner_restaurant : Option RestaurantInfo
  selection_reasoning : String
deriving DecidableEq

/-- `models.TravelTimes`. -/
structure TravelTimes where
  breakfast_to_lunch : Option String
  lunch_to_dinner : Option String
  breakfast_to_dinner : Option String
deriving DecidableEq

/-- `models.RoutePlan`: the Plan stage's structured result. -/
structure RoutePlan where
  route_overview : String
  selected_meals : List String
  breakfast_to_lunch : Option RouteDetails
  lunch_to_dinner : Option RouteDetails
  breakfast_to_dinner : Option RouteDetails
  transport_recommendations : List String
  travel_times : TravelTimes
deriving DecidableEq

/-- A message arriving at the group chat's reply handlers: either one of the
two structured result types or anything else (free text). -/
inductive Message where
  | selection (s : RestaurantSelection)
  | route (r : RoutePlan)
  | text (t : String)
deriving DecidableEq

/-! ### JSON values and the geocoding collaborator

`geocode_location` parses the tool response with `json.loads`; the parsed
value can be any JSON value, so the embedding carries a small JSON type and
the Python truthiness / `in` / indexing / `.get` operations used on it. -/

/-- A parsed JSON value (the values `json.loads` can hand back to the code). -/
inductive JsonVal where
  | null
  | str (s : String)
  | num (q : ℚ)
  | arr (elems : List JsonVal)
  | obj (fields : List (String × JsonVal))

/-- Python truthiness of a JSON value. -/
def JsonVal.truthy : JsonVal → Bool
  | .null => false
  | .str s => s ≠ ""
  | .num q => q ≠ 0
  | .arr l => !l.isEmpty
  | .obj l => !l.isEmpty

/-- `v == "k"` for a JSON value (membership test inside lists). -/
def isStrEq (k : String) : JsonVal → Bool
  | .str s => s = k
  | _ => false

/-- Python `k in v`: key test on dicts, substring on strings, membership on
lists; `none` models the `TypeError` raised on numbers and `None`. -/
def pyHasKey (k : String) : JsonVal → Option Bool
  | .obj fs => some (fs.any (fun f => f.1 = k))
  | .str s => some (pyIn k s)
  | .arr xs => some (xs.any (isStrEq k))
  | _ => none

/-- Python `v[k]` for a string key: lookup on dicts (`none` models
`KeyError`); `none` models `TypeError` on every other value. -/
def pyIndex (k : String) : JsonVal → Option JsonVal
  | .obj fs => ((fs.find? (fun f => f.1 = k)).map (fun f => f.2))
  | _ => none

/-- Python `v.get(k, dflt)`: only dicts have `.get`; `none` models the
`AttributeError` on every other value. -/
def pyGetAttr (k : String) (dflt : JsonVal) : JsonVal → Option JsonVal
  | .obj fs => some ((((fs.find? (fun f => f.1 = k)).map (fun f => f.2))).getD dflt)
  | _ => none

/-- Python `float(v)`: numbers pass through, strings go through the given
parse function (`none` models `ValueError`), everything else raises
(`TypeError`, modelled as `none`). -/
def pyFloat (parse : String → Option ℚ) : JsonVal → Option ℚ
  | .num q => some q
  | .str s => parse s
  | _ => none

/-- One item of a tool-call result's `content` list; `jsonOf = none` models
`json.loads` raising on the item's text. -/
structure ContentItem where
  ctype : String
  jsonOf : Option JsonVal

/-- Behaviour of one `session.call_tool("geocode_address", ...)` invocation. -/
inductive ToolCallResult where
  | raises
  | returns (content : List ContentItem)

/-! ### `geocode_location` (`calendar_agent.py` 105-141) -/

/-- The query string built at `calendar_agent.py:118`: the location itself if
it already mentions `"Cambridge"`, otherwise qualified with the city. -/
def geocodeQuery (location : String) : String :=
  if pyIn "Cambridge" location then location else location ++ ", Cambridge, England"

/-- The `for content_item in result.content` loop: first `'text'` item whose
JSON parse is a non-empty list yields its head, a dict yields itself, any
other parse falls through to the next item; a parse error is caught by the
function's `except` and yields `none`. -/
def geocodeFromContents : List ContentItem → Option JsonVal
  | [] => none
  | item :: rest =>
    if item.ctype = "text" then
      match item.jsonOf with
      | none => none
      | some (JsonVal.arr (x :: _)) => some x
      | some (JsonVal.obj fs) => some (JsonVal.obj fs)
      | some _ => geocodeFromContents rest
    else geocodeFromContents rest

/-- Embedding of `geocode_location`.  `env` is the geocoding collaborator's
behaviour on a query string.  The first component records the geocode
requests issued (the body performs exactly one `call_tool`); the second is
the returned value, with every exception caught and turned into `none`. -/
def geocode_location (env : String → ToolCallResult) (location : String) :
    List String × Option JsonVal :=
  let query := geocodeQuery location
  ⟨[query],
    match env query with
    | .raises => none
    | .returns items => geocodeFromContents items⟩

/-! ### `process_calendar_data` (`workflow.py` 237-345) -/

/-- A parsed calendar entry (`parse_calendar_entries` output shape). -/
structure CalendarEntry where
  start_time : String
  end_time : String
  description : String

/-- One element of the `location_entries` list built at `workflow.py:284`. -/
structure LocationEntry where
  time : String
  description : String
  location : String
  display_name : JsonVal
  latitude : ℚ
  longitude : ℚ

/-- Python `repr` of a JSON value (used by `str` on containers). -/
def jsonRepr : JsonVal → String
  | .null => "None"
  | .str s => String.mk (Char.ofNat 39 :: (s.data ++ [Char.ofNat 39]))
  | .num q => toString q
  | .arr xs => "[" ++ String.intercalate ", " (xs.attach.map (fun x => jsonRepr x.1)) ++ "]"
  | .obj fs =>
    "\x7b" ++
      String.intercalate ", "
        (fs.attach.map (fun f =>
          String.mk (Char.ofNat 39 :: (f.1.1.data ++ [Char.ofNat 39])) ++ ": " ++ jsonRepr f.1.2)) ++
    "\x7d"
  termination_by v => sizeOf v
  decreasing_by
  · have h := List.sizeOf_lt_of_mem x.2
    simp only [JsonVal.arr.sizeOf_spec]
    omega
  · rcases f with ⟨⟨a, b⟩, hab⟩
    have h := List.sizeOf_lt_of_mem hab
    simp only [Prod.mk.sizeOf_spec] at h
    simp only [JsonVal.obj.sizeOf_spec]
    omega

/-- Python `str` of a JSON value (strings unquoted, containers via `repr`). -/
def jsonStr : JsonVal → String
  | .str s => s
  | v => jsonRepr v

/-- The body of the per-entry loop of `process_calendar_data`
(`workflow.py` 272-293): extract a location phrase, proceed only when it is
truthy (`if location:` at `workflow.py:275` skips both `None` and the empty
string without geocoding), geocode it, check the result is truthy and
carries `lat`/`lon`, convert the coordinates; any exception inside the inner
`try` (type errors on malformed values, float parse failures, missing
attributes) skips just this entry. -/
def processEntry (env : String → ToolCallResult) (parse : String → Option ℚ)
    (entry : CalendarEntry) : Option LocationEntry :=
  match extract_location_from_description entry.description with
  | none => none
  | some loc =>
    if loc.isEmpty then none
    else
    match (geocode_location env loc).2 with
    | none => none
    | some info =>
      if info.truthy then
        match pyHasKey "lat" info with
        | some true =>
          match pyHasKey "lon" info with
          | some true =>
            match (pyIndex "lat" info).bind (pyFloat parse),
                  (pyIndex "lon" info).bind (pyFloat parse) with
            | some la, some lo =>
              match pyGetAttr "display_name" (.str loc) info with
              | some dn =>
                some { time := entry.start_time ++ " - " ++ entry.end_time,
                       description := entry.description,
                       location := loc,
                       display_name := dn,
                       latitude := la,
                       longitude := lo }
              | none => none
            | _, _ => none
          | _ => none
        | _ => none
      else none

/-- The values written to the Context's anchor fields by one
`workflow_context.update` call of `process_calendar_data`. -/
structure AnchorWrite where
  calendar_locations : List Geolocation
  calendar_entries : List LocationEntry
  existing_locations : String

/-- The degraded defaults written on no entries / no locations / failure. -/
def defaultAnchorWrite : AnchorWrite :=
  { calendar_locations := [], calendar_entries := [], existing_locations := "None" }

/-- One formatted line of the `existing_locations` report (`workflow.py` 318). -/
def formatExistingLine (e : LocationEntry) : String :=
  "- " ++ e.time ++ ": " ++ jsonStr e.display_name ++
    " (Coordinates: " ++ toString e.latitude ++ ", " ++ toString e.longitude ++ ")"

/-- The full anchor write performed when some locations were found
(`workflow.py` 304-328). -/
def fullAnchorWrite (les : List LocationEntry) : AnchorWrite :=
  { calendar_locations := les.map (fun e => { latitude := e.latitude, longitude := e.longitude }),
    calendar_entries := les,
    existing_locations :=
      if (les.map formatExistingLine).isEmpty then "None"
      else String.intercalate "\n" (les.map formatExistingLine) }

/-- Embedding of `process_calendar_data`, returning the sequence of updates
applied to the Context's anchor fields.  `parsed` is the outcome of
`parse_calendar_entries` (`Except.error` when it raises); the whole body is
wrapped in `try/except`, with the `except` writing the defaults. -/
def process_calendar_data (parsed : Except String (List CalendarEntry))
    (env : String → ToolCallResult) (parse : String → Option ℚ) : List AnchorWrite :=
  match parsed with
  | .error _ => [defaultAnchorWrite]
  | .ok entries =>
    if entries.isEmpty then [defaultAnchorWrite]
    else
      let location_entries := entries.filterMap (processEntry env parse)
      if location_entries.isEmpty then [defaultAnchorWrite]
      else [fullAnchorWrite location_entries]

/-! ### The shared workflow context (`workflow.py` 21-34) -/

/-- The `existing_locations` field starts as the empty list and is later
replaced by a formatted string (Python rebinds the value's type). -/
inductive StrOrStrList where
  | ofList (l : List String)
  | ofStr (s : String)
deriving DecidableEq

/-- The catalog rows built by `get_cambridge_restaurant_data`
(`workflow.py` 204-210): name, subcategory, coordinates and the raw tags. -/
structure VenueRecord where
  name : String
  type : String
  latitude : ℚ
  longitude : ℚ
  tags : List (String × String)
deriving DecidableEq

/-- The shared `ContextVariables` aggregate, one field per dict key.  The
`selected_meals` and `calendar_entries` keys are absent until first written,
hence `Option`. -/
structure ContextVariables where
  restaurant_count : Nat
  restaurant_categories : List String
  food_preferences : String
  constraints : String
  requested_meals : List String
  restaurants_with_locations : List VenueRecord
  selected_restaurants : List (String × RestaurantInfo)
  route_plan : Option RoutePlan
  calendar_locations : List Geolocation
  existing_locations : StrOrStrList
  selected_meals : Option (List String)
  calendar_entries : Option (List LocationEntry)

/-- Embedding of `init_workflow_context`. -/
def init_workflow_context : ContextVariables :=
  { restaurant_count := 0,
    restaurant_categories := [],
    food_preferences := "None",
    constraints := "None",
    requested_meals := ["breakfast", "lunch", "dinner"],
    restaurants_with_locations := [],
    selected_restaurants := [],
    route_plan := none,
    calendar_locations := [],
    existing_locations := .ofList [],
    selected_meals := none,
    calendar_entries := none }

/-! ### The reply handlers (`workflow.py` 36-135) -/

/-- The three-argument form of `is_restaurant_selection`
(`workflow.py` 48-57): an `isinstance` check on the message. -/
def is_restaurant_selection (msg : Message) : Bool :=
  match msg with
  | .selection _ => true
  | _ => false

/-- The three-argument form of `is_route_plan` (`workflow.py` 91-100). -/
def is_route_plan (msg : Message) : Bool :=
  match msg with
  | .route _ => true
  | _ => false

/-- One guarded entry of the `selected_restaurants` dict built at
`workflow.py` 64-71: added only when the tag is in the message's
`selected_meals` and the corresponding venue field is non-`None`. -/
def mealEntry (tag : String) (m : RestaurantSelection) (r : Option RestaurantInfo) :
    List (String × RestaurantInfo) :=
  if tag ∈ m.selected_meals then
    match r with
    | some ri => [(tag, ri)]
    | none => []
  else []

/-- The `selected_restaurants` dict a `RestaurantSelection` message merges
into the Context (`workflow.py` 64-71), in insertion order. -/
def selectionToDict (m : RestaurantSelection) : List (String × RestaurantInfo) :=
  mealEntry "breakfast" m m.breakfast_restaurant ++
  mealEntry "lunch" m m.lunch_restaurant ++
  mealEntry "dinner" m m.dinner_restaurant

/-- Embedding of `update_selected_restaurants` (`workflow.py` 59-89),
restricted to its Context mutation: on a `RestaurantSelection` message it
overwrites `selected_restaurants` and `selected_meals`; on anything else it
leaves the Context untouched. -/
def update_selected_restaurants (msg : Message) (ctx : ContextVariables) : ContextVariables :=
  match msg with
  | .selection m =>
    { ctx with
        selected_restaurants := selectionToDict m,
        selected_meals := some m.selected_meals }
  | _ => ctx

/-- Embedding of `update_route_plan` (`workflow.py` 102-124), restricted to
its Context mutation. -/
def update_route_plan (msg : Message) (ctx : ContextVariables) : ContextVariables :=
  match msg with
  | .route r => { ctx with route_plan := some r }
  | _ => ctx

/-- Dispatch of one incoming message through the two registered reply
handlers (`workflow.py` 127-135): each handler fires exactly when its
trigger check accepts the message. -/
def handleMessage (msg : Message) (ctx : ContextVariables) : ContextVariables :=
  let ctx1 := if is_restaurant_selection msg then update_selected_restaurants msg ctx else ctx
  if is_route_plan msg then update_route_plan msg ctx1 else ctx1

/-- The Context after a sequence of group-chat messages has been dispatched. -/
def processMessages : List Message → ContextVariables → ContextVariables
  | [], ctx => ctx
  | m :: ms, ctx => processMessages ms (handleMessage m ctx)

/-! ### The venue catalog builder (`workflow.py` 186-222)

The nearby-places response is a nested `category → subcategory → [place]`
structure; the loop at `workflow.py` 195-211 walks `(subcategory, places)`
pairs in order, so the embedding flattens the nesting to that pair list and
recurses over it, accumulating the same three outputs as the loop. -/

/-- One place record of the nearby-places response.  `tags = none` models a
record without a `'tags'` key. -/
structure Place where
  tags : Option (List (String × String))
  latitude : ℚ
  longitude : ℚ

/-- The nested `categories` mapping of the response. -/
abbrev Categories := List (String × List (String × List Place))

/-- The fixed whitelist at `workflow.py:191`. -/
def valid_subcategories : List String :=
  ["restaurant", "pub", "bar", "cafe", "fast_food", "bistro", "food_court"]

/-- `subcategory.lower() in valid_subcategories`. -/
def whitelisted (sub : String) : Bool :=
  valid_subcategories.contains (pyLower sub)

/-- `'tags' in place and 'name' in place.get('tags', {})` (`workflow.py:203`). -/
def hasNameTag (p : Place) : Bool :=
  match p.tags with
  | some ts => ts.any (fun t => t.1 = "name")
  | none => false

/-- The `restaurant_info` dict built at `workflow.py` 204-210. -/
def venueOf (sub : String) (p : Place) : VenueRecord :=
  { name :=
      (match p.tags with
       | some ts => (((ts.find? (fun t => t.1 = "name")).map (fun t => t.2))).getD "Unknown Restaurant"
       | none => "Unknown Restaurant"),
    type := sub,
    latitude := p.latitude,
    longitude := p.longitude,
    tags := p.tags.getD [] }

/-- The `(subcategory, places)` pairs in the order the nested loop visits them. -/
def subPairs (cats : Categories) : List (String × List Place) :=
  (cats.map (fun c => c.2)).flatten

/-- The inner `for place in places` loop: keep the named places
(`workflow.py` 202-211). -/
def processPlaces (sub : String) (places : List Place) : List VenueRecord :=
  (places.filter hasNameTag).map (venueOf sub)

/-- The `restaurants_with_locations` accumulator over the visited pairs. -/
def catalogVenues : List (String × List Place) → List VenueRecord
  | [] => []
  | p :: rest =>
    (if whitelisted p.1 then processPlaces p.1 p.2 else []) ++ catalogVenues rest

/-- The `restaurant_count` accumulator: `restaurant_count += len(places)`
before any name filtering (`workflow.py` 198-199). -/
def catalogCount : List (String × List Place) → Nat
  | [] => 0
  | p :: rest => (if whitelisted p.1 then p.2.length else 0) + catalogCount rest

/-- The `restaurant_categories` accumulator (`workflow.py:200`). -/
def catalogCats : List (String × List Place) → List String
  | [] => []
  | p :: rest =>
    (if whitelisted p.1 then [p.1 ++ ": " ++ toString p.2.length ++ " places"] else []) ++
      catalogCats rest

/-- The Context update performed by `get_cambridge_restaurant_data` once the
city geocode succeeded (`workflow.py` 218-222). -/
def update_restaurant_data (cats : Categories) (ctx : ContextVariables) : ContextVariables :=
  { ctx with
      restaurant_count := catalogCount (subPairs cats),
      restaurant_categories := catalogCats (subPairs cats),
      restaurants_with_locations := catalogVenues (subPairs cats) }

/-! ### Run initialization (`run_restaurant_workflow`, `workflow.py` 347-418) -/

/-- Python truthiness of an optional string argument (`None` and `""` falsy). -/
def truthyStr : Option String → Bool
  | some s => s ≠ ""
  | none => false

/-- Python truthiness of an optional list argument (`None` and `[]` falsy). -/
def truthyList : Option (List String) → Bool
  | some l => !l.isEmpty
  | none => false

/-- The Context right after `run_restaurant_workflow` creates it fresh and
applies the `context_updates` overrides (`workflow.py` 362-375): each user
input is applied only when truthy. -/
def runContextSetup (user_food_preferences user_constraints : Option String)
    (requested_meals : Option (List String)) : ContextVariables :=
  let ctx := init_workflow_context
  let ctx := if truthyStr user_food_preferences then
    { ctx with food_preferences := user_food_preferences.getD "" } else ctx
  let ctx := if truthyStr user_constraints then
    { ctx with constraints := user_constraints.getD "" } else ctx
  if truthyList requested_meals then
    { ctx with requested_meals := requested_meals.getD [] } else ctx

/-! ### The Plan instruction template (`agent_messages.py` 110-131) -/

/-- Python `str.capitalize()` (ASCII). -/
def pyCapitalize (s : String) : String :=
  match s.data with
  | [] => ""
  | c :: cs => String.mk (c.toUpper :: cs.map Char.toLower)

/-- `format_restaurant_details` (`workflow.py` 40-45); the dict values the
workflow stores are always non-`None`, so the loop's truthiness guard always
passes. -/
def format_restaurant_details (selected : List (String × RestaurantInfo)) : String :=
  String.intercalate "\n"
    (selected.map (fun mr =>
      pyCapitalize mr.1 ++ ": " ++ mr.2.name ++ " (Type: " ++ mr.2.type ++ ")"))

/-- `DYNAMIC_PLANNER_MESSAGE.format(...)`: the template text of
`agent_messages.py` 110-131 with the three placeholders substituted. -/
def plannerInstruction (selected_meals restaurant_details existing_locations : String) : String :=
  "\nYou are a route planner agent. Your task is to plan an efficient route between the selected restaurants in Cambridge.\n\nThe selected meals are: " ++
  selected_meals ++
  "\nThe selected restaurants are:\n" ++
  restaurant_details ++
  "\nThe existing locations of the user at certain times in the day are:\n" ++
  existing_locations ++
  "\n\nPlan a route that:\n- Includes only the selected meals in the appropriate order\n- Minimises travel distance/time between locations, including between existing locations and the selected meals if relevant\n- Is practical for a tourist to follow\n- Includes suggestions for transport methods (walking, bus, taxi, etc.)\n\nYou must output a structured route plan with:\n1. Overall route overview\n2. Set of selected meals (same as input)\n3. Route details between each pair of selected meals\n4. Transport recommendations\n5. Travel times between selected meals\n"

/-- Python `str` of the `existing_locations` context value as it reaches the
`.format` call (a string renders as itself, the initial empty list as `[]`). -/
def strOfExisting : StrOrStrList → String
  | .ofStr s => s
  | .ofList l =>
    "[" ++ String.intercalate ", "
      (l.map (fun s => String.mk (Char.ofNat 39 :: (s.data ++ [Char.ofNat 39])))) ++ "]"

/-- The planner system message rebuilt by `update_selected_restaurants`
(`workflow.py` 79-83) from the message and the current Context. -/
def plannerMessageOf (m : RestaurantSelection) (ctx : ContextVariables) : String :=
  plannerInstruction
    (String.intercalate ", " m.selected_meals)
    (format_restaurant_details (selectionToDict m))
    (strOfExisting ctx.existing_locations)

/-! ### Concrete instances used by the analyses -/

/-- A concrete breakfast venue. -/
def breakfastVenue : RestaurantInfo :=
  { name := "The Breakfast Club", type := "cafe", latitude := 52, longitude := 0 }

/-- A concrete dinner venue. -/
def dinnerVenue : RestaurantInfo :=
  { name := "The Eagle", type := "pub", latitude := 52, longitude := 0 }

/-- A Select result whose only meal tag is `breakfast`. -/
def breakfastOnlySelection : RestaurantSelection :=
  { selected_meals := ["breakfast"],
    breakfast_restaurant := some breakfastVenue,
    lunch_restaurant := none,
    dinner_restaurant := none,
    selection_reasoning := "best cafe for the morning" }

/-- A Select result carrying the tags `breakfast` and `dinner`. -/
def breakfastDinnerSelection : RestaurantSelection :=
  { selected_meals := ["breakfast", "dinner"],
    breakfast_restaurant := some breakfastVenue,
    lunch_restaurant := none,
    dinner_restaurant := some dinnerVenue,
    selection_reasoning := "morning and evening picks" }

/-- A concrete route plan with no segments. -/
def simpleRoute : RoutePlan :=
  { route_overview := "walk between the venues",
    selected_meals := ["lunch"],
    breakfast_to_lunch := none,
    lunch_to_dinner := none,
    breakfast_to_dinner := none,
    transport_recommendations := ["walking"],
    travel_times :=
      { breakfast_to_lunch := none, lunch_to_dinner := none, breakfast_to_dinner := none } }

/-- A nearby-places response with one whitelisted place that has no tags. -/
def unnamedCafeCats : Categories :=
  [("amenity", [("cafe", [{ tags := none, latitude := 0, longitude := 0 }])])]

/-- A nearby-places response with one named whitelisted place. -/
def namedPubCats : Categories :=
  [("amenity", [("pub", [{ tags := some [("name", "The Eagle")], latitude := 0, longitude := 0 }])])]

/-! ## Theorems -/

/-- The fuel of `commaSegsFuel` is irrelevant once it covers the list length,
so `commaSegs` computes the unbounded greedy consumption. -/
theorem commaSegsFuel_stable (n : Nat) :
    ∀ (cs : List Char) (m : Nat), cs.length ≤ n → cs.length ≤ m →
      commaSegsFuel n cs = commaSegsFuel m cs := by
  induction n with
  | zero =>
    intro cs m hn _
    rw [List.length_eq_zero.mp (Nat.le_zero.mp hn)]
    cases m <;> rfl
  | succ n ih =>
    intro cs m hn hm
    cases cs with
    | nil => cases m <;> rfl
    | cons c rest =>
      cases m with
      | zero => exact absurd hm (by simp)
      | succ m' =>
        simp only [commaSegsFuel]
        split
        · split
          · rfl
          · have hgen : ∀ l : List Char, (l.dropWhile isClassChar).length ≤ l.length := by
              intro l
              induction l with
              | nil => simp [List.dropWhile]
              | cons a as iha =>
                simp only [List.dropWhile]
                split
                · exact Nat.le_succ_of_le iha
                · exact Nat.le_refl _
            have hlen : (rest.dropWhile isClassChar).length ≤ rest.length := hgen rest
            have h1 : (rest.dropWhile isClassChar).length ≤ n :=
              le_trans hlen (by simpa using hn)
            have h2 : (rest.dropWhile isClassChar).length ≤ m' :=
              le_trans hlen (by simpa using hm)
            rw [ih _ _ h1 h2]
        · rfl

/-- Claim C4: a description containing a denylist activity word and neither
of the locating substrings `"at "`/`"in "` (checked, like the code, on the
lowercased text) yields no location; and the two scenario descriptions
behave as the spec states. -/
theorem c4_denylist_skip_and_scenarios :
    (∀ d : String,
      skip_terms.any (fun term => pyIn term (pyLower d)) = true →
      pyIn "at " (pyLower d) = false →
      pyIn "in " (pyLower d) = false →
      extract_location_from_description d = none) ∧
    extract_location_from_description "Morning Run" = none ∧
    extract_location_from_description "Breakfast at The Breakfast Club" =
      some "The Breakfast Club" := by
  refine ⟨?_, by decide, by decide⟩
  intro d h1 h2 h3
  have hcond : skip_terms.any (fun term =>
      pyIn term (pyLower d) && !(pyIn "at " (pyLower d)) && !(pyIn "in " (pyLower d))) = true := by
    rcases List.any_eq_true.mp h1 with ⟨t, ht, hp⟩
    exact List.any_eq_true.mpr ⟨t, ht, by simp [hp, h2, h3]⟩
  unfold extract_location_from_description
  simp only [hcond, if_true]

/-- Witness for C4 at the description `"Morning Run"`. -/
theorem c4_witness :
    skip_terms.any (fun term => pyIn term (pyLower "Morning Run")) = true ∧
    extract_location_from_description "Morning Run" = none :=
  ⟨by decide,
   c4_denylist_skip_and_scenarios.1 "Morning Run" (by decide) (by decide) (by decide)⟩

/-- Claim C7: `geocode_location` issues exactly one geocode request, whose
query is the location itself when it contains `"Cambridge"` and the location
qualified with `", Cambridge, England"` otherwise. -/
theorem c7_single_qualified_geocode_request :
    ∀ (env : String → ToolCallResult) (L : String),
      (geocode_location env L).1.length = 1 ∧
      (pyIn "Cambridge" L = true → (geocode_location env L).1 = [L]) ∧
      (pyIn "Cambridge" L = false →
        (geocode_location env L).1 = [L ++ ", Cambridge, England"]) := by
  intro env L
  refine ⟨rfl, ?_, ?_⟩ <;> intro h <;> simp [geocode_location, geocodeQuery, h]

/-- Claim C1: the code violates the claimed invariant.  With requested
meal-tag set `["lunch"]`, a `RestaurantSelection` whose `selected_meals` is
`["breakfast"]` passes the coordinator's check and
`update_selected_restaurants` writes a `selected_restaurants` key
`"breakfast"` that is not a member of the requested set: the merge is guarded
by the message's own `selected_meals`, never by `requested_meals`. -/
theorem c1_unrequested_tag_reaches_context :
    is_restaurant_selection (Message.selection breakfastOnlySelection) = true ∧
    (update_selected_restaurants (Message.selection breakfastOnlySelection)
        (runContextSetup none none (some ["lunch"]))).selected_restaurants =
      [("breakfast", breakfastVenue)] ∧
    "breakfast" ∉ (runContextSetup none none (some ["lunch"])).requested_meals := by
  refine ⟨rfl, ?_, by decide⟩
  decide

/-- Claim C2, counterexample: the only validation applied to the Select
stage's structured result before merging is the `isinstance` check
`is_restaurant_selection`; it accepts a `RestaurantSelection` whose selected
meal-tag set is not a subset of the requested set, and the handler merges it
unchanged — there is no subset validation, retry, or failure transition. -/
theorem c2_nonsubset_result_accepted_and_merged :
    is_restaurant_selection (Message.selection breakfastDinnerSelection) = true ∧
    ¬ (∀ t ∈ breakfastDinnerSelection.selected_meals,
        t ∈ (runContextSetup none none (some ["breakfast"])).requested_meals) ∧
    (update_selected_restaurants (Message.selection breakfastDinnerSelection)
        (runContextSetup none none (some ["breakfast"]))).selected_meals =
      some ["breakfast", "dinner"] ∧
    (update_selected_restaurants (Message.selection breakfastDinnerSelection)
        (runContextSetup none none (some ["breakfast"]))).selected_restaurants =
      [("breakfast", breakfastVenue), ("dinner", dinnerVenue)] := by
  refine ⟨rfl, by decide, rfl, by decide⟩

/-- Claim C2 as amended: before merging, the coordinator checks only that the
Select result is an instance of the `RestaurantSelection` schema (which by
construction carries a justification string and at most one optional venue
per meal tag); every schema instance is merged regardless of its meal-tag
set, and a message failing the check leaves the Context untouched. -/
theorem c2_validation_is_instance_check_only :
    ∀ (msg : Message) (ctx : ContextVariables),
      (is_restaurant_selection msg = true ↔ ∃ m, msg = Message.selection m) ∧
      (∀ m, msg = Message.selection m →
        update_selected_restaurants msg ctx =
          { ctx with
              selected_restaurants := selectionToDict m,
              selected_meals := some m.selected_meals }) ∧
      (is_restaurant_selection msg = false → update_selected_restaurants msg ctx = ctx) := by
  intro msg ctx
  cases msg with
  | selection m =>
    refine ⟨⟨fun _ => ⟨m, rfl⟩, fun _ => rfl⟩, ?_, ?_⟩
    · intro m' hm'
      cases hm'
      rfl
    · intro h
      cases h
  | route r =>
    refine ⟨?_, ?_, ?_⟩
    · simp [is_restaurant_selection]
    · intro m hm
      cases hm
    · intro _
      rfl
  | text t =>
    refine ⟨?_, ?_, ?_⟩
    · simp [is_restaurant_selection]
    · intro m hm
      cases hm
    · intro _
      rfl

/-- Witness for the amended C2 at a concrete message and context. -/
theorem c2_witness :
    update_selected_restaurants (Message.selection breakfastOnlySelection) init_workflow_context =
      { init_workflow_context with
          selected_restaurants := selectionToDict breakfastOnlySelection,
          selected_meals := some breakfastOnlySelection.selected_meals } :=
  (c2_validation_is_instance_check_only
    (Message.selection breakfastOnlySelection) init_workflow_context).2.1
    breakfastOnlySelection rfl

/-- Witness for C7: one query containing the city, one without. -/
theorem c7_witness :
    (geocode_location (fun _ => ToolCallResult.raises) "Cambridge Station").1 =
      ["Cambridge Station"] ∧
    (geocode_location (fun _ => ToolCallResult.raises) "Mill Road").1 =
      ["Mill Road, Cambridge, England"] :=
  ⟨(c7_single_qualified_geocode_request (fun _ => ToolCallResult.raises)
      "Cambridge Station").2.1 (by decide),
   (c7_single_qualified_geocode_request (fun _ => ToolCallResult.raises)
      "Mill Road").2.2 (by decide)⟩

/-- Projection of the Context setup: the requested-meals field after the
overrides equals the override list exactly when it is truthy. -/
theorem runContextSetup_requested_meals (p c : Option String) (r : Option (List String)) :
    (runContextSetup p c r).requested_meals =
      if truthyList r then r.getD [] else ["breakfast", "lunch", "dinner"] := by
  unfold runContextSetup
  split_ifs <;> rfl

/-- Projections of the Context setup: the overrides never touch the
selection and route-plan fields. -/
theorem runContextSetup_fresh (p c : Option String) (r : Option (List String)) :
    (runContextSetup p c r).route_plan = none ∧
    (runContextSetup p c r).selected_restaurants = [] := by
  unfold runContextSetup
  constructor <;> (split_ifs <;> rfl)

/-- A message sequence with no `RoutePlan` message leaves `route_plan`
unchanged. -/
theorem processMessages_route_plan_of_no_route :
    ∀ (ms : List Message) (c : ContextVariables),
      (∀ rp, Message.route rp ∉ ms) → (processMessages ms c).route_plan = c.route_plan := by
  intro ms
  induction ms with
  | nil =>
    intro c _
    rfl
  | cons m rest ih =>
    intro c hmem
    have hrest : ∀ rp, Message.route rp ∉ rest :=
      fun rp h => hmem rp (List.mem_cons_of_mem _ h)
    rw [processMessages, ih _ hrest]
    cases m with
    | selection s => rfl
    | route r => exact absurd (List.mem_cons_self _ _) (hmem r)
    | text t => rfl

/-- Claim C6: the Context is created with `route_plan = None` and
`selected_restaurants = {}`; a freshly initialized run Context (after the
user-input overrides) still carries those defaults, so a second run sees
nothing from a prior run; and `route_plan` becomes non-null only if some
dispatched message was a `RoutePlan`. -/
theorem c6_route_plan_lifecycle :
    init_workflow_context.route_plan = none ∧
    init_workflow_context.selected_restaurants = [] ∧
    (∀ (p c : Option String) (r : Option (List String)),
      (runContextSetup p c r).route_plan = none ∧
      (runContextSetup p c r).selected_restaurants = []) ∧
    (∀ (msgs : List Message) (ctx : ContextVariables),
      ctx.route_plan = none → (processMessages msgs ctx).route_plan ≠ none →
      ∃ rp, Message.route rp ∈ msgs) := by
  refine ⟨rfl, rfl, runContextSetup_fresh, ?_⟩
  intro msgs ctx h0 hne
  by_contra hno
  push_neg at hno
  exact hne (by rw [processMessages_route_plan_of_no_route msgs ctx hno, h0])

/-- Witness for C6: a run whose message sequence set `route_plan` did
contain a `RoutePlan` message. -/
theorem c6_witness :
    ∃ rp, Message.route rp ∈ [Message.route simpleRoute] :=
  c6_route_plan_lifecycle.2.2.2 [Message.route simpleRoute] init_workflow_context
    rfl (by decide)

/-- Claim C8: the Plan-stage instruction text is a pure function of the data
it is rendered from — rendering the template twice with the same
selected-meals text, restaurant details and existing-locations text, or
twice from the same selection message and Context, yields byte-identical
strings. -/
theorem c8_plan_instruction_deterministic :
    (∀ sm rd el : String, plannerInstruction sm rd el = plannerInstruction sm rd el) ∧
    (∀ (m : RestaurantSelection) (ctx : ContextVariables),
      plannerMessageOf m ctx = plannerMessageOf m ctx) :=
  ⟨fun _ _ _ => rfl, fun _ _ => rfl⟩

/-- Claim C10: a `None` or empty `requested_meals` argument leaves the
default `["breakfast", "lunch", "dinner"]` in place, and the Context's
requested meal-tag set is never empty. -/
theorem c10_requested_meals_default_on_falsy :
    ∀ (p c : Option String) (r : Option (List String)),
      ((r = none ∨ r = some []) →
        (runContextSetup p c r).requested_meals = ["breakfast", "lunch", "dinner"]) ∧
      (runContextSetup p c r).requested_meals ≠ [] := by
  intro p c r
  have hreq := runContextSetup_requested_meals p c r
  constructor
  · rintro (rfl | rfl) <;> simpa [truthyList] using hreq
  · rw [hreq]
    cases r with
    | none => simp [truthyList]
    | some l =>
      cases l with
      | nil => simp [truthyList]
      | cons a as => simp [truthyList]

/-- Witness for C10 at all-`None` run inputs. -/
theorem c10_witness :
    (runContextSetup none none none).requested_meals = ["breakfast", "lunch", "dinner"] ∧
    (runContextSetup none none none).requested_meals ≠ [] :=
  ⟨(c10_requested_meals_default_on_falsy none none none).1 (Or.inl rfl),
   (c10_requested_meals_default_on_falsy none none none).2⟩

/-- Claim C3: for every calendar parse outcome and every behaviour of the
geocoding collaborator (exceptions, malformed responses, missing fields,
unparseable coordinates), `process_calendar_data` performs exactly one write
to the Context's anchor fields, and that write is either the degraded
defaults or the full list of per-entry successes — a failing entry is merely
absent from the `filterMap`, never a partial write. -/
theorem c3_anchor_fields_written_once_all_or_defaults :
    ∀ (parsed : Except String (List CalendarEntry)) (env : String → ToolCallResult)
      (parse : String → Option ℚ),
      (process_calendar_data parsed env parse).length = 1 ∧
      (process_calendar_data parsed env parse = [defaultAnchorWrite] ∨
        ∃ entries, parsed = Except.ok entries ∧
          entries.filterMap (processEntry env parse) ≠ [] ∧
          process_calendar_data parsed env parse =
            [fullAnchorWrite (entries.filterMap (processEntry env parse))]) := by
  intro parsed env parse
  cases parsed with
  | error e => exact ⟨rfl, Or.inl rfl⟩
  | ok entries =>
    by_cases h1 : entries.isEmpty
    · constructor
      · unfold process_calendar_data
        simp [h1]
      · left
        unfold process_calendar_data
        simp [h1]
    · by_cases h2 : (entries.filterMap (processEntry env parse)).isEmpty
      · constructor
        · unfold process_calendar_data
          simp [h1, h2]
        · left
          unfold process_calendar_data
          simp [h1, h2]
      · constructor
        · unfold process_calendar_data
          simp [h1, h2]
        · right
          refine ⟨entries, rfl, by simpa using h2, ?_⟩
          unfold process_calendar_data
          simp [h1, h2]

/-- Soundness half of the catalog filter: every accumulated venue comes from
a whitelisted subcategory and a place with a name tag. -/
theorem catalogVenues_sound :
    ∀ (l : List (String × List Place)) (v : VenueRecord), v ∈ catalogVenues l →
      whitelisted v.type = true ∧ v.tags.any (fun t => t.1 = "name") = true := by
  intro l
  induction l with
  | nil =>
    intro v hv
    simp [catalogVenues] at hv
  | cons q rest ih =>
    intro v hv
    rw [catalogVenues] at hv
    rcases List.mem_append.mp hv with h | h
    · by_cases hw : whitelisted q.1
      · rw [if_pos hw] at h
        rcases List.mem_map.mp h with ⟨p, hp, rfl⟩
        have hname := (List.mem_filter.mp hp).2
        constructor
        · simpa [venueOf] using hw
        · rcases htq : p.tags with _ | ts
          · rw [hasNameTag, htq] at hname
            exact absurd hname (by simp)
          · rw [hasNameTag, htq] at hname
            simpa [venueOf, htq] using hname
      · rw [if_neg hw] at h
        simp at h
    · exact ih v h

/-- Completeness half of the catalog filter: every whitelisted named place
of a visited pair is accumulated. -/
theorem catalogVenues_complete :
    ∀ (l : List (String × List Place)) (sp : String × List Place), sp ∈ l →
      whitelisted sp.1 = true → ∀ p ∈ sp.2, hasNameTag p = true →
      venueOf sp.1 p ∈ catalogVenues l := by
  intro l
  induction l with
  | nil =>
    intro sp hsp
    simp at hsp
  | cons q rest ih =>
    intro sp hsp hw p hp hn
    rw [catalogVenues]
    rcases List.mem_cons.mp hsp with rfl | h
    · apply List.mem_append_left
      rw [if_pos hw]
      exact List.mem_map.mpr ⟨p, List.mem_filter.mpr ⟨hp, hn⟩, rfl⟩
    · exact List.mem_append_right _ (ih sp h hw p hp hn)

/-- Claim C5: every venue placed in `restaurants_with_locations` has a
subcategory whose lowercase form is in the whitelist and a record carrying a
`'name'` tag; conversely every place of the response in a whitelisted
subcategory whose record carries a name tag appears in the list. -/
theorem c5_catalog_whitelisted_and_named :
    ∀ cats : Categories,
      (∀ v ∈ (update_restaurant_data cats init_workflow_context).restaurants_with_locations,
        pyLower v.type ∈ valid_subcategories ∧ v.tags.any (fun t => t.1 = "name") = true) ∧
      (∀ cs ∈ cats, ∀ sp ∈ cs.2, pyLower sp.1 ∈ valid_subcategories →
        ∀ p ∈ sp.2, hasNameTag p = true →
          venueOf sp.1 p ∈
            (update_restaurant_data cats init_workflow_context).restaurants_with_locations) := by
  intro cats
  constructor
  · intro v hv
    have h := catalogVenues_sound (subPairs cats) v (by simpa [update_restaurant_data] using hv)
    refine ⟨?_, h.2⟩
    have := h.1
    simpa [whitelisted] using this
  · intro cs hcs sp hsp hwl p hp hn
    have hw : whitelisted sp.1 = true := by simpa [whitelisted] using hwl
    have hmem : sp ∈ subPairs cats :=
      List.mem_flatten.mpr ⟨cs.2, List.mem_map_of_mem _ hcs, hsp⟩
    simpa [update_restaurant_data] using
      catalogVenues_complete (subPairs cats) sp hmem hw p hp hn

/-- Witness for C5 at a one-place response. -/
theorem c5_witness :
    pyLower (venueOf "pub" { tags := some [("name", "The Eagle")], latitude := 0, longitude := 0 }).type
        ∈ valid_subcategories ∧
    (venueOf "pub" { tags := some [("name", "The Eagle")], latitude := 0, longitude := 0 }).tags.any
        (fun t => t.1 = "name") = true :=
  (c5_catalog_whitelisted_and_named namedPubCats).1
    (venueOf "pub" { tags := some [("name", "The Eagle")], latitude := 0, longitude := 0 })
    (by decide)

/-- The count accumulator equals the sum of the whitelisted pairs' place
counts (no name filtering involved). -/
theorem catalogCount_eq_sum :
    ∀ l : List (String × List Place),
      catalogCount l =
        ((l.filter (fun sp => whitelisted sp.1)).map (fun sp => sp.2.length)).sum := by
  intro l
  induction l with
  | nil => rfl
  | cons q rest ih =>
    rw [catalogCount, ih, List.filter_cons]
    by_cases hw : whitelisted q.1
    · simp [hw]
    · simp [hw]

/-- The venue list never outgrows the count. -/
theorem catalogVenues_length_le :
    ∀ l : List (String × List Place), (catalogVenues l).length ≤ catalogCount l := by
  intro l
  induction l with
  | nil => exact Nat.le_refl 0
  | cons q rest ih =>
    rw [catalogVenues, catalogCount, List.length_append]
    apply Nat.add_le_add _ ih
    by_cases hw : whitelisted q.1
    · rw [if_pos hw, if_pos hw]
      have h : (q.2.filter hasNameTag).length ≤ q.2.length := List.length_filter_le _ _
      simpa [processPlaces] using h
    · simp [hw]

/-- A whitelisted place without a name tag makes the inequality strict. -/
theorem catalogVenues_length_lt :
    ∀ l : List (String × List Place),
      (∃ sp ∈ l, whitelisted sp.1 = true ∧ ∃ p ∈ sp.2, hasNameTag p = false) →
      (catalogVenues l).length < catalogCount l := by
  intro l
  induction l with
  | nil =>
    intro h
    simp at h
  | cons q rest ih =>
    intro h
    rw [catalogVenues, catalogCount, List.length_append]
    rcases h with ⟨sp, hsp, hw, p, hp, hn⟩
    rcases List.mem_cons.mp hsp with rfl | hmem
    · have hhead : (if whitelisted sp.1 then processPlaces sp.1 sp.2 else []).length
          < (if whitelisted sp.1 then sp.2.length else 0) := by
        rw [if_pos hw, if_pos hw]
        have hlt : (sp.2.filter hasNameTag).length < sp.2.length :=
          List.length_filter_lt_length_iff_exists.mpr ⟨p, hp, by simp [hn]⟩
        simpa [processPlaces] using hlt
      exact add_lt_add_of_lt_of_le hhead (catalogVenues_length_le rest)
    · have hhead : (if whitelisted q.1 then processPlaces q.1 q.2 else []).length
          ≤ (if whitelisted q.1 then q.2.length else 0) := by
        by_cases hwq : whitelisted q.1
        · rw [if_pos hwq, if_pos hwq]
          have h := List.length_filter_le hasNameTag q.2
          simpa [processPlaces] using h
        · simp [hwq]
      exact add_lt_add_of_le_of_lt hhead (ih ⟨sp, hmem, hw, p, hp, hn⟩)

/-- Claim C9: `restaurant_count` counts whitelisted places before the
name-tag filter, so it bounds the catalog length from above, strictly
whenever some whitelisted place lacks a name tag. -/
theorem c9_restaurant_count_before_name_filter :
    ∀ cats : Categories,
      (update_restaurant_data cats init_workflow_context).restaurant_count =
        (((subPairs cats).filter (fun sp => whitelisted sp.1)).map
          (fun sp => sp.2.length)).sum ∧
      ((update_restaurant_data cats init_workflow_context).restaurants_with_locations).length ≤
        (update_restaurant_data cats init_workflow_context).restaurant_count ∧
      ((∃ sp ∈ subPairs cats, whitelisted sp.1 = true ∧ ∃ p ∈ sp.2, hasNameTag p = false) →
        ((update_restaurant_data cats init_workflow_context).restaurants_with_locations).length <
          (update_restaurant_data cats init_workflow_context).restaurant_count) := by
  intro cats
  refine ⟨?_, ?_, ?_⟩
  · simpa [update_restaurant_data] using catalogCount_eq_sum (subPairs cats)
  · simpa [update_restaurant_data] using catalogVenues_length_le (subPairs cats)
  · intro h
    simpa [update_restaurant_data] using catalogVenues_length_lt (subPairs cats) h

/-- Witness for C9: one whitelisted place without a name tag gives
`0 = length < restaurant_count = 1`. -/
theorem c9_witness :
    ((update_restaurant_data unnamedCafeCats init_workflow_context).restaurants_with_locations).length <
      (update_restaurant_data unnamedCafeCats init_workflow_context).restaurant_count :=
  (c9_restaurant_count_before_name_filter unnamedCafeCats).2.2 (by decide)

end Restaurant
